import Mathlib

/-!
Shallow embedding of the connection-admission and live-status-reconciliation
core of the TikTok live-monitor server (src/server.js).

The server keeps three global JavaScript Maps/arrays:
  `connections`     (username -> WebcastPushConnection, the admission pool),
  `liveData`        (username -> per-account live state),
  `connectionQueue` (array of usernames waiting for a pool slot),
plus a PostgreSQL `users` table whose `status` column is either
`'monitoring'` or `'waiting'`.

Maps are modelled as association lists preserving JavaScript `Map` insertion
order; the `users` table is modelled by the association of username to status
(the only column the control logic reads).  Network calls (connecting to
TikTok, probing live status) are modelled by oracles passed as parameters:
the code only branches on whether the call succeeded / what it returned, and
those branches are reproduced faithfully.  Timestamps (`new Date()` /
`toISOString()`) are modelled as a `Nat` parameter `now`.
-/

namespace TikTokMonitor

/-- `MAX_CONCURRENT_CONNECTIONS` (server.js:39). -/
def MAX_CONCURRENT_CONNECTIONS : Nat := 25

/-- One entry of `recentComments` (server.js:591-595). -/
structure CommentEntry where
  user : String
  text : String
  timestamp : Nat
deriving DecidableEq, Repr

/-- One entry of `recentGifts` (server.js:627-634). -/
structure GiftEntry where
  user : String
  giftName : String
  giftId : Nat
  count : Nat
  diamonds : Nat
  timestamp : Nat
deriving DecidableEq, Repr

/-- A value of the `liveData` map (server.js:218-230, 840-850). -/
structure UserData where
  username : String
  isLive : Bool
  viewerCount : Nat
  totalComments : Nat
  totalGifts : Nat
  totalDiamonds : Nat
  lastUpdate : Nat
  recentComments : List CommentEntry
  recentGifts : List GiftEntry
deriving DecidableEq, Repr

/-- The `status` column of the `users` table (`'monitoring'` / `'waiting'`). -/
inductive DbStatus where
  | monitoring
  | waiting
deriving DecidableEq, Repr

/-- The global mutable state of the server process: the `connections` pool
(keys only; the connection objects carry no further control state), the
`liveData` map, the `connectionQueue` array, and the `users` table rows
(username to status). -/
structure SrvState where
  connections : List String
  liveData : List (String × UserData)
  connectionQueue : List String
  users : List (String × DbStatus)
deriving DecidableEq, Repr

/-- JavaScript `Map.get`. -/
def mapGet {α : Type} (k : String) : List (String × α) → Option α
  | [] => none
  | (k', v) :: rest => if k' = k then some v else mapGet k rest

/-- JavaScript `Map.set`: updates in place when the key exists (insertion
order is preserved), otherwise appends. -/
def mapSet {α : Type} (k : String) (v : α) : List (String × α) → List (String × α)
  | [] => [(k, v)]
  | (k', v') :: rest => if k' = k then (k, v) :: rest else (k', v') :: mapSet k v rest

/-- JavaScript `Map.delete`. -/
def mapDelete {α : Type} (k : String) (m : List (String × α)) : List (String × α) :=
  m.filter (fun e => ¬ (e.1 = k))

/-- `connections.set(username, conn)` restricted to the key set: appends the
key unless it is already present (server.js:708). -/
def connInsert (h : String) (l : List String) : List String :=
  if l.contains h then l else l ++ [h]

/-- `connectionQueue.splice(indexOf(h), 1)`: removes the first occurrence
only (server.js:1017-1020). -/
def removeFirstOcc (h : String) : List String → List String
  | [] => []
  | x :: rest => if x = h then rest else x :: removeFirstOcc h rest

/-- JavaScript `||` on an optional number: `undefined`, `null` and `0` are
falsy, so they yield the fallback. -/
def jsOrNat (a : Option Nat) (b : Nat) : Nat :=
  match a with
  | some v => if v = 0 then b else v
  | none => b

/-- JavaScript `||` on an optional string: `undefined` and `''` are falsy. -/
def jsOrStr (a : Option String) (b : String) : String :=
  match a with
  | some v => if v = "" then b else v
  | none => b

/-- Removes the first `'@'`, as `username.replace('@', '')` does (JavaScript
`String.replace` with a string pattern replaces the first occurrence only). -/
def removeFirstAt : List Char → List Char
  | [] => []
  | c :: rest => if c = '@' then rest else c :: removeFirstAt rest

/-- Whitespace for the purposes of `String.trim`. -/
def jsWs (c : Char) : Bool :=
  c == ' ' || c == '\t' || c == '\n' || c == '\r'

/-- `username.replace('@', '').trim()` (server.js:818). -/
def cleanHandle (s : String) : String :=
  String.mk ((((removeFirstAt s.data).dropWhile jsWs).reverse.dropWhile jsWs).reverse)

/-- `createInitialUserData` (server.js:218-230).  Note `isLive` starts `true`. -/
def createInitialUserData (username : String) (now : Nat) : UserData :=
  { username := username
    isLive := true
    viewerCount := 0
    totalComments := 0
    totalGifts := 0
    totalDiamonds := 0
    lastUpdate := now
    recentComments := []
    recentGifts := [] }

/-- Payload of a `'comment'` event. -/
structure CommentEvt where
  nickname : String
  text : String
deriving DecidableEq, Repr

/-- Payload of a `'gift'` event.  `diamondCount` models
`data.giftDetails?.diamond_count` and `repeatCount` models `data.repeatCount`
(either may be absent). -/
structure GiftEvt where
  nickname : String
  giftName : Option String
  giftId : Nat
  repeatCount : Option Nat
  diamondCount : Option Nat
deriving DecidableEq, Repr

/-- The comment entry pushed by the `'comment'` handler (server.js:591-595). -/
def mkCommentEntry (d : CommentEvt) (now : Nat) : CommentEntry :=
  { user := d.nickname, text := d.text, timestamp := now }

/-- The `'comment'` event handler's mutation of one `UserData`
(server.js:585-614): increment `totalComments`, unshift the new entry and
`slice(0, 10)`, refresh `lastUpdate`. -/
def onComment (d : CommentEvt) (now : Nat) (u : UserData) : UserData :=
  { u with
    totalComments := u.totalComments + 1
    recentComments := (mkCommentEntry d now :: u.recentComments).take 10
    lastUpdate := now }

/-- `data.giftDetails?.diamond_count || data.repeatCount || 1`
(server.js:624). -/
def giftDiamondValue (d : GiftEvt) : Nat :=
  jsOrNat d.diamondCount (jsOrNat d.repeatCount 1)

/-- The gift entry pushed by the `'gift'` handler (server.js:627-634). -/
def mkGiftEntry (d : GiftEvt) (now : Nat) : GiftEntry :=
  { user := d.nickname
    giftName := jsOrStr d.giftName "Unknown Gift"
    giftId := d.giftId
    count := jsOrNat d.repeatCount 0
    diamonds := giftDiamondValue d
    timestamp := now }

/-- The `'gift'` event handler's mutation of one `UserData`
(server.js:617-649). -/
def onGift (d : GiftEvt) (now : Nat) (u : UserData) : UserData :=
  { u with
    totalGifts := u.totalGifts + 1
    totalDiamonds := u.totalDiamonds + giftDiamondValue d
    recentGifts := (mkGiftEntry d now :: u.recentGifts).take 10
    lastUpdate := now }

/-- The `'roomUser'` event handler's mutation (server.js:652-669):
`viewerCount = data.viewerCount || 0`. -/
def onRoomUser (viewers : Option Nat) (now : Nat) (u : UserData) : UserData :=
  { u with viewerCount := jsOrNat viewers 0, lastUpdate := now }

/-- The `'disconnected'` event handler's mutation (server.js:684-700). -/
def onDisconnected (now : Nat) (u : UserData) : UserData :=
  { u with isLive := false, lastUpdate := now }

/-- Folds a sequence of `'comment'` events (each with its arrival time) over
one `UserData`, in delivery order. -/
def applyComments (evs : List (CommentEvt × Nat)) (u : UserData) : UserData :=
  evs.foldl (fun a e => onComment e.1 e.2 a) u

/-- Folds a sequence of `'gift'` events over one `UserData`. -/
def applyGifts (evs : List (GiftEvt × Nat)) (u : UserData) : UserData :=
  evs.foldl (fun a e => onGift e.1 e.2 a) u

/-- The `.then` callback of `tiktokLiveConnection.connect()` inside
`connectToTikTokLive` (server.js:560-575): on a successful connection the
account's `liveData` entry is overwritten with `createInitialUserData`
(all counters zero, `isLive` true). -/
def connectSuccess (h : String) (now : Nat) (st : SrvState) : SrvState :=
  { st with liveData := mapSet h (createInitialUserData h now) st.liveData }

/-- The `.catch` callback of `tiktokLiveConnection.connect()` inside
`connectToTikTokLive` (server.js:577-582): on a connection error the
account's `liveData` entry is deleted. -/
def connectError (h : String) (st : SrvState) : SrvState :=
  { st with liveData := mapDelete h st.liveData }

/-- The synchronous part of `connectToTikTokLive` (server.js:553-715): the
new connection is stored in the pool with `connections.set` (line 708)
before the function returns. -/
def connectPoolAdd (h : String) (st : SrvState) : SrvState :=
  { st with connections := connInsert h st.connections }

/-- Outcome of one probe strategy inside `checkLiveWithAlternatives`:
the strategy either resolved (returning its `isLive` boolean) or threw. -/
inductive ProbeAttempt where
  | success (isLive : Bool)
  | failure
deriving DecidableEq, Repr

/-- The network outcomes seen by one run of `checkLiveWithAlternatives`:
what `checkLiveWithDirectAPI` and `checkLiveWithScraping` would produce. -/
structure AltInputs where
  directApi : ProbeAttempt
  scraping : ProbeAttempt
deriving DecidableEq, Repr

/-- The `finalResult` object of `checkLiveWithAlternatives`. -/
structure AltFinal where
  isLive : Bool
  source : String
deriving DecidableEq, Repr

/-- The `results` object of `checkLiveWithAlternatives`: the `attempts` log
(method name, whether the method succeeded) and the `finalResult`. -/
structure AltOutcome where
  attempts : List (String × Bool)
  finalResult : AltFinal
deriving DecidableEq, Repr

/-- `checkLiveWithAlternatives` (server.js:381-438).  Method 1 (direct API)
returns early only when it reports `isLive` true; a successful direct-API
call reporting offline falls through to method 2 (web scraping), and when
neither method reports live the final result is
`{ isLive: false, source: 'all-methods' }` (line 436). -/
def checkLiveWithAlternatives (inp : AltInputs) : AltOutcome :=
  match inp.directApi with
  | .success true =>
    { attempts := [("direct-api", true)], finalResult := ⟨true, "direct-api"⟩ }
  | .success false =>
    match inp.scraping with
    | .success true =>
      { attempts := [("direct-api", true), ("web-scraping", true)]
        finalResult := ⟨true, "web-scraping"⟩ }
    | .success false =>
      { attempts := [("direct-api", true), ("web-scraping", true)]
        finalResult := ⟨false, "all-methods"⟩ }
    | .failure =>
      { attempts := [("direct-api", true), ("web-scraping", false)]
        finalResult := ⟨false, "all-methods"⟩ }
  | .failure =>
    match inp.scraping with
    | .success true =>
      { attempts := [("direct-api", false), ("web-scraping", true)]
        finalResult := ⟨true, "web-scraping"⟩ }
    | .success false =>
      { attempts := [("direct-api", false), ("web-scraping", true)]
        finalResult := ⟨false, "all-methods"⟩ }
    | .failure =>
      { attempts := [("direct-api", false), ("web-scraping", false)]
        finalResult := ⟨false, "all-methods"⟩ }

/-- Outcome of the test connection opened by
`checkSingleUserLiveStatusAccurate`: either `connect()` resolved, or it
rejected with the given error message.  A timed-out attempt rejects with
the message `'Connection timeout'` (server.js:465). -/
inductive ConnOutcome where
  | success
  | failure (msg : String)
deriving DecidableEq, Repr

/-- `a == b && charsLeadMatch as bs`: whether `pat` is an initial segment. -/
def charsLeadMatch : List Char → List Char → Bool
  | [], _ => true
  | _ :: _, [] => false
  | a :: as, b :: bs => a == b && charsLeadMatch as bs

/-- Whether `pat` occurs as a contiguous run inside `l`. -/
def charsIncludes (pat : List Char) : List Char → Bool
  | [] => pat.isEmpty
  | c :: rest => charsLeadMatch pat (c :: rest) || charsIncludes pat rest

/-- JavaScript `s.includes(pat)`. -/
def strIncludes (s pat : String) : Bool :=
  charsIncludes pat.data s.data

/-- The `offlineErrors` pattern list of `checkSingleUserLiveStatusAccurate`
(server.js:482-495).  Note that `'Connection timeout'` — the message of a
timed-out attempt — is on this list. -/
def offlineErrors : List String :=
  [ "LIVE has ended"
  , "UserOfflineError"
  , "User is not live"
  , "Room not found"
  , "Connection timeout"
  , "Failed to retrieve the initial room data"
  , "Failed to connect to websocket"
  , "Unable to retrieve room data"
  , "Room is not available"
  , "Stream is not available"
  , "User does not exist"
  , "Private account or user not found" ]

/-- `checkSingleUserLiveStatusAccurate` (server.js:445-510): a successful
test connection means live (`some true`); a rejected one means offline
(`some false`) when the error message contains one of `offlineErrors`,
otherwise the result is indeterminate (`none`, the function returns
`null`). -/
def checkSingleUserLiveStatusAccurate (o : ConnOutcome) : Option Bool :=
  match o with
  | .success => some true
  | .failure msg =>
    if offlineErrors.any (fun p => strIncludes msg p) then some false else none

/-- The tri-state probe results seen by one iteration of
`checkLiveStatusAccurate`'s sweep loop (server.js:1317-1342):
`alternatives` is `none` when `checkLiveWithAlternatives` threw (or its
`finalResult` was missing), `basic` is the result of
`checkSingleUserLiveStatus` (`none` = `null`), and `accurate` is the result
of `checkSingleUserLiveStatusAccurate` (`none` = `null`). -/
structure ProbeResults where
  alternatives : Option Bool
  basic : Option Bool
  accurate : Option Bool
deriving DecidableEq, Repr

/-- The escalation cascade of server.js:1317-1342: the alternatives check is
used when it resolved, else the basic check, else the accurate check; if
all three are indeterminate the sweep skips the handle (`continue`). -/
def resolveStatus (p : ProbeResults) : Option Bool :=
  match p.alternatives with
  | some b => some b
  | none =>
    match p.basic with
    | some b => some b
    | none => p.accurate

/-- Notifications emitted (`io.emit`) by the reconciliation sweep. -/
inductive Notif where
  | userConnected
  | userDisconnected
  | liveStatusOnline
  | liveStatusOffline
  | liveDataUpdate
deriving DecidableEq, Repr

/-- One iteration of the `for (const [username, userData] of liveData)` loop
of `checkLiveStatusAccurate` (server.js:1305-1403) for handle `h`, with the
probe outcomes `p` and the connect oracle `ok` (whether
`connectToTikTokLive` succeeds for a handle).  Returns the new state and the
notifications emitted by the sweep itself for this handle.  Probe-internal
side effects (`checkSingleUserLiveStatus` mutates `liveData` on its own,
server.js:531-541) are outside this step, which models the application of
the resolved status (lines 1344-1399):
  - no resolved status: `continue`, nothing changes (lines 1337-1340);
  - resolved status equals the recorded `isLive`: nothing is written and
    nothing is emitted (lines 1397-1399);
  - otherwise `isLive` and `lastUpdate` are rewritten; an online transition
    re-admits the handle when absent from the pool and a slot is free
    (line 1368), an offline transition deletes the pool entry
    (lines 1377-1381). -/
def checkLiveStatusAccurateStep (p : ProbeResults) (ok : String → Bool)
    (now : Nat) (h : String) (st : SrvState) : SrvState × List Notif :=
  match mapGet h st.liveData with
  | none => (st, [])
  | some u =>
    match resolveStatus p with
    | none => (st, [])
    | some isLive =>
      if isLive = u.isLive then (st, [])
      else
        let u' : UserData := { u with isLive := isLive, lastUpdate := now }
        let st' : SrvState := { st with liveData := mapSet h u' st.liveData }
        if isLive then
          let st'' : SrvState :=
            if st'.connections.contains h = false
                ∧ st'.connections.length < MAX_CONCURRENT_CONNECTIONS
                ∧ ok h = true then
              { st' with connections := connInsert h st'.connections }
            else st'
          (st'', [.userConnected, .liveStatusOnline, .liveDataUpdate])
        else
          (({ st' with connections := st'.connections.filter (fun c => ¬ (c = h)) }),
            [.userDisconnected, .liveStatusOffline, .liveDataUpdate])

/-- Result of one `processConnectionQueue` invocation. -/
structure DrainOutcome where
  state : SrvState
  attempted : Option String
  scheduledNext : Bool
deriving DecidableEq, Repr

/-- `processConnectionQueue` (server.js:166-198): return if the queue is
empty or the pool is full; otherwise `shift()` the head and try to connect.
On success the user's row becomes `'monitoring'` and another round is
scheduled (`setTimeout`, line 188); on failure the entry is pushed back at
the tail (line 196) and no further round is scheduled for this cycle. -/
def processConnectionQueue (ok : String → Bool) (st : SrvState) : DrainOutcome :=
  match st.connectionQueue with
  | [] => ⟨st, none, false⟩
  | u :: rest =>
    if st.connections.length ≥ MAX_CONCURRENT_CONNECTIONS then ⟨st, none, false⟩
    else if ok u then
      ⟨{ st with
          connectionQueue := rest
          connections := connInsert u st.connections
          users := mapSet u .monitoring st.users }, some u, true⟩
    else
      ⟨{ st with connectionQueue := rest ++ [u] }, some u, false⟩

/-- One `users` table row as read by `restoreExistingUsers`
(server.js:106-112). -/
structure DbRow where
  username : String
  totalDiamonds : Nat
  totalGifts : Nat
  totalComments : Nat
  isLive : Bool
  viewerCount : Nat
  lastLiveCheck : Option Nat
  status : DbStatus
deriving DecidableEq, Repr

/-- One iteration of the restore loop of `restoreExistingUsers`
(server.js:116-152): the row is always rebuilt into `liveData`; a
`'monitoring'` row is reconnected only when the pool has room, and on a
failed reconnect — or whenever no connection is attempted — the handle goes
to the wait queue with status `'waiting'`. -/
def restoreExistingUsersStep (ok : String → Bool) (now : Nat) (row : DbRow)
    (st : SrvState) : SrvState :=
  let userData : UserData :=
    { username := row.username
      isLive := row.isLive
      viewerCount := row.viewerCount
      totalComments := row.totalComments
      totalGifts := row.totalGifts
      totalDiamonds := row.totalDiamonds
      lastUpdate := jsOrNat row.lastLiveCheck now
      recentComments := []
      recentGifts := [] }
  let st1 : SrvState := { st with liveData := mapSet row.username userData st.liveData }
  if row.status = DbStatus.monitoring
      ∧ st1.connections.length < MAX_CONCURRENT_CONNECTIONS then
    if ok row.username then
      { st1 with connections := connInsert row.username st1.connections }
    else
      { st1 with
        connectionQueue := st1.connectionQueue ++ [row.username]
        users := mapSet row.username .waiting st1.users }
  else
    { st1 with
      connectionQueue := st1.connectionQueue ++ [row.username]
      users := mapSet row.username .waiting st1.users }

/-- The distinct responses of `POST /api/add-user` (server.js:807-991). -/
inductive AddUserResult where
  | badRequest
  | alreadyTracked
  | waiting (queuePosition : Nat)
  | startedLive
  | started
  | addedNotLive
  | startedFallback
  | addedWithWarning
deriving DecidableEq, Repr

/-- The capacity check of `POST /api/add-user` (server.js:877): `true` means
the handler proceeds towards opening a connection.  Isolated as its own
definition because, in the source, awaited calls
(`checkLiveWithAlternatives`, database writes) separate this check from the
`connectToTikTokLive` call, so concurrent requests can each observe the
same pool size before either connects. -/
def addUserCapacityCheck (st : SrvState) : Bool :=
  st.connections.length < MAX_CONCURRENT_CONNECTIONS

/-- `POST /api/add-user` (server.js:807-991), run atomically.  `alt` is
`some inp` when `checkLiveWithAlternatives` returns normally with the
network outcomes `inp`, `none` when it throws (the catch at line 954);
`cok` says whether `connectToTikTokLive` succeeds. -/
def addUserHandler (alt : Option AltInputs) (cok : Bool) (now : Nat)
    (body : Option String) (st : SrvState) : AddUserResult × SrvState :=
  match body with
  | none => (.badRequest, st)
  | some username =>
    if username = "" then (.badRequest, st)
    else if cleanHandle username = "" then (.badRequest, st)
    else if (mapGet (cleanHandle username) st.users).isSome then (.alreadyTracked, st)
    else
      let clean := cleanHandle username
      let userData : UserData :=
        { username := clean
          isLive := false
          viewerCount := 0
          totalComments := 0
          totalGifts := 0
          totalDiamonds := 0
          lastUpdate := now
          recentComments := []
          recentGifts := [] }
      let st1 : SrvState :=
        { st with
          liveData := mapSet clean userData st.liveData
          users := mapSet clean .monitoring st.users }
      if st1.connections.length ≥ MAX_CONCURRENT_CONNECTIONS then
        (.waiting (st1.connectionQueue.length + 1),
          { st1 with
            users := mapSet clean .waiting st1.users
            connectionQueue := st1.connectionQueue ++ [clean] })
      else
        match alt with
        | some inp =>
          if (checkLiveWithAlternatives inp).finalResult.isLive then
            let st2 : SrvState :=
              { st1 with liveData := mapSet clean { userData with isLive := true } st1.liveData }
            (.startedLive,
              if cok then { st2 with connections := connInsert clean st2.connections } else st2)
          else if cok then
            (.started, { st1 with connections := connInsert clean st1.connections })
          else
            (.addedNotLive, st1)
        | none =>
          if cok then
            (.startedFallback, { st1 with connections := connInsert clean st1.connections })
          else
            (.addedWithWarning, st1)

/-- The distinct responses of `POST /api/remove-user` (server.js:994-1038).
`typeError` is the uncaught `TypeError` thrown at line 996 when the request
body has no `username`: `username.replace('@', '')` dereferences
`undefined`, and line 996 sits before the `try` block that starts at
line 998. -/
inductive RemoveResult where
  | typeError
  | notFound
  | removed
deriving DecidableEq, Repr

/-- `POST /api/remove-user` (server.js:994-1038).  Note it does not `trim`
(line 996 only strips `'@'`). -/
def removeUserHandler (body : Option String) (st : SrvState) : RemoveResult × SrvState :=
  match body with
  | none => (.typeError, st)
  | some username =>
    let clean := String.mk (removeFirstAt username.data)
    match mapGet clean st.users with
    | none => (.notFound, st)
    | some _ =>
      (.removed,
        { st with
          users := mapDelete clean st.users
          connections := st.connections.filter (fun c => ¬ (c = clean))
          liveData := mapDelete clean st.liveData
          connectionQueue := removeFirstOcc clean st.connectionQueue })

/-- The pool-cap invariant the spec states for `activeCount`
(`connections.size`). -/
abbrev capOK (st : SrvState) : Prop :=
  st.connections.length ≤ MAX_CONCURRENT_CONNECTIONS

/-- The three monotone counters of a `UserData`. -/
def countersOf (u : UserData) : Nat × Nat × Nat :=
  (u.totalComments, u.totalGifts, u.totalDiamonds)

/-! Concrete fixture states used to evaluate the model on explicit inputs. -/

/-- A fresh server state: no pool entries, no tracked accounts, empty queue. -/
def stEmpty : SrvState := ⟨[], [], [], []⟩

/-- Twenty-four distinct pool entries, one below the cap of 25. -/
def names24 : List String := (List.range 24).map (fun i => "user" ++ toString i)

/-- A server state whose pool holds 24 connections. -/
def st24 : SrvState := ⟨names24, [], [], []⟩

def uDave : UserData :=
  { username := "dave", isLive := true, viewerCount := 0, totalComments := 3
    totalGifts := 1, totalDiamonds := 4, lastUpdate := 0
    recentComments := [], recentGifts := [] }

def stDave : SrvState := ⟨["dave"], [("dave", uDave)], [], [("dave", .monitoring)]⟩

def uErin : UserData :=
  { username := "erin", isLive := false, viewerCount := 0, totalComments := 0
    totalGifts := 0, totalDiamonds := 0, lastUpdate := 0
    recentComments := [], recentGifts := [] }

def stErin : SrvState := ⟨[], [("erin", uErin)], [], [("erin", .monitoring)]⟩

def uAlice : UserData :=
  { username := "alice", isLive := true, viewerCount := 7, totalComments := 5
    totalGifts := 2, totalDiamonds := 9, lastUpdate := 0
    recentComments := [], recentGifts := [] }

def stAlice : SrvState := ⟨["alice"], [("alice", uAlice)], [], [("alice", .monitoring)]⟩

def uFrank : UserData :=
  { username := "frank", isLive := true, viewerCount := 2, totalComments := 1
    totalGifts := 0, totalDiamonds := 0, lastUpdate := 0
    recentComments := [], recentGifts := [] }

def stFrank : SrvState := ⟨["frank"], [("frank", uFrank)], [], [("frank", .monitoring)]⟩

/-- A state whose wait queue is `[A, B, C]` with a free pool. -/
def stQueue : SrvState := ⟨[], [], ["A", "B", "C"], []⟩

/-- A `users` row for the restore path. -/
def rowEx : DbRow :=
  { username := "dave", totalDiamonds := 4, totalGifts := 1, totalComments := 3
    isLive := false, viewerCount := 0, lastLiveCheck := some 2, status := .monitoring }

def cEvt : CommentEvt := ⟨"bob", "hi"⟩

def gEvt : GiftEvt := ⟨"bob", some "Rose", 5, some 2, some 5⟩

/-! Helper lemmas about the map and pool primitives. -/

theorem mapGet_mapSet_self {α : Type} (k : String) (v : α) (m : List (String × α)) :
    mapGet k (mapSet k v m) = some v := by
  induction m with
  | nil => simp [mapSet, mapGet]
  | cons e rest ih =>
    obtain ⟨k', v'⟩ := e
    by_cases h : k' = k
    · simp [mapSet, mapGet, h]
    · simp [mapSet, mapGet, h, ih]

theorem mapGet_mapDelete_self {α : Type} (k : String) (m : List (String × α)) :
    mapGet k (mapDelete k m) = none := by
  induction m with
  | nil => rfl
  | cons e rest ih =>
    obtain ⟨k', v'⟩ := e
    by_cases h : k' = k
    · simpa [mapDelete, List.filter_cons, h] using ih
    · simpa [mapDelete, List.filter_cons, mapGet, h] using ih

theorem connInsert_length_le (h : String) (l : List String) :
    (connInsert h l).length ≤ l.length + 1 := by
  unfold connInsert
  split
  · exact Nat.le_succ _
  · simp

theorem connInsert_cap {h : String} {l : List String}
    (hlt : l.length < MAX_CONCURRENT_CONNECTIONS) :
    (connInsert h l).length ≤ MAX_CONCURRENT_CONNECTIONS :=
  le_trans (connInsert_length_le h l) hlt

theorem take10_append {α : Type} (A L : List α) :
    (A ++ L.take 10).take 10 = (A ++ L).take 10 := by
  rw [List.take_append_eq_append_take, List.take_append_eq_append_take, List.take_take,
    Nat.min_eq_left (Nat.sub_le 10 A.length)]

theorem applyComments_recent (evs : List (CommentEvt × Nat)) :
    ∀ u : UserData, u.recentComments.length ≤ 10 →
      (applyComments evs u).recentComments
        = ((evs.map (fun e => mkCommentEntry e.1 e.2)).reverse ++ u.recentComments).take 10 := by
  induction evs with
  | nil =>
    intro u hu
    simp [applyComments, List.take_of_length_le hu]
  | cons e rest ih =>
    intro u hu
    have h1 : applyComments (e :: rest) u = applyComments rest (onComment e.1 e.2 u) := rfl
    have h2 : (onComment e.1 e.2 u).recentComments
        = (mkCommentEntry e.1 e.2 :: u.recentComments).take 10 := rfl
    have h3 : (onComment e.1 e.2 u).recentComments.length ≤ 10 := by
      rw [h2]; exact List.length_take_le 10 _
    rw [h1, ih _ h3, h2, take10_append]
    simp

theorem applyGifts_recent (evs : List (GiftEvt × Nat)) :
    ∀ u : UserData, u.recentGifts.length ≤ 10 →
      (applyGifts evs u).recentGifts
        = ((evs.map (fun e => mkGiftEntry e.1 e.2)).reverse ++ u.recentGifts).take 10 := by
  induction evs with
  | nil =>
    intro u hu
    simp [applyGifts, List.take_of_length_le hu]
  | cons e rest ih =>
    intro u hu
    have h1 : applyGifts (e :: rest) u = applyGifts rest (onGift e.1 e.2 u) := rfl
    have h2 : (onGift e.1 e.2 u).recentGifts
        = (mkGiftEntry e.1 e.2 :: u.recentGifts).take 10 := rfl
    have h3 : (onGift e.1 e.2 u).recentGifts.length ≤ 10 := by
      rw [h2]; exact List.length_take_le 10 _
    rw [h1, ih _ h3, h2, take10_append]
    simp

/-! Claim theorems. -/

/-- Claim C4: during a reconciliation sweep, if every probe for a handle
returns an inconclusive/unknown result, the handle's recorded state (isLive
and counters) is left unchanged, no notification is emitted, and the sweep
moves on to the next handle; an unknown probe outcome is never applied as a
status change. -/
theorem C4_unknown_probes (p : ProbeResults) (ok : String → Bool) (now : Nat)
    (h : String) (st : SrvState)
    (h1 : p.alternatives = none) (h2 : p.basic = none) (h3 : p.accurate = none) :
    checkLiveStatusAccurateStep p ok now h st = (st, []) := by
  have hres : resolveStatus p = none := by
    simp [resolveStatus, h1, h2, h3]
  cases hg : mapGet h st.liveData <;>
    simp [checkLiveStatusAccurateStep, hg, hres]

/-- Witness for C4: three all-unknown probe results in a row leave the
state of "frank" and the notification list untouched. -/
theorem C4_witness :
    checkLiveStatusAccurateStep ⟨none, none, none⟩ (fun _ => true) 9 "frank" stFrank
      = (stFrank, []) :=
  C4_unknown_probes ⟨none, none, none⟩ (fun _ => true) 9 "frank" stFrank rfl rfl rfl

/-- Claim C5: queue drain is FIFO with tail-retry — `processConnectionQueue`
pops the head of the wait queue and attempts admission; on failure it
re-appends that entry at the tail (not the head) and stops draining for the
cycle, so for queue `[A, B, C]` with `A` failing, the queue afterwards is
`[B, C, A]` and `B` is the next entry attempted. -/
theorem C5_drain_fifo (ok ok2 : String → Bool) (st : SrvState) (a : String)
    (rest : List String) (hq : st.connectionQueue = a :: rest)
    (hcap : st.connections.length < MAX_CONCURRENT_CONNECTIONS)
    (hfail : ok a = false) :
    (processConnectionQueue ok st).attempted = some a ∧
    (processConnectionQueue ok st).state.connectionQueue = rest ++ [a] ∧
    (processConnectionQueue ok st).scheduledNext = false ∧
    (processConnectionQueue ok st).state.connections = st.connections ∧
    (processConnectionQueue ok2 (processConnectionQueue ok st).state).attempted
      = (rest ++ [a]).head? := by
  have hnot : ¬ (st.connections.length ≥ MAX_CONCURRENT_CONNECTIONS) := Nat.not_le.mpr hcap
  refine ⟨?_, ?_, ?_, ?_, ?_⟩ <;>
    rcases rest with _ | ⟨b, bs⟩ <;>
      cases hok2 : ok2 a <;> cases hok2b : ok2 "" <;>
        simp [processConnectionQueue, hq, hnot, hfail, hok2]
  · cases hok2' : ok2 b <;> simp [hok2']
  · cases hok2' : ok2 b <;> simp [hok2']
  · cases hok2' : ok2 b <;> simp [hok2']
  · cases hok2' : ok2 b <;> simp [hok2']

/-- Witness for C5: from queue `[A, B, C]` with `A` failing, the queue
becomes `[B, C, A]` and `B` is attempted on the next invocation. -/
theorem C5_witness :
    (processConnectionQueue (fun _ => false) stQueue).state.connectionQueue
      = ["B", "C", "A"] ∧
    (processConnectionQueue (fun _ => false)
        (processConnectionQueue (fun _ => false) stQueue).state).attempted = some "B" := by
  have hmain := C5_drain_fifo (fun _ => false) (fun _ => false) stQueue "A" ["B", "C"]
    rfl (by decide) rfl
  exact ⟨hmain.2.1, by rw [hmain.2.2.2.2]; rfl⟩

/-- Claim C7: for every handle and every sequence of comment and gift events,
`recentComments` and `recentGifts` each contain at most 10 entries in
newest-first order — each event pushes its entry to the front and the buffer
is truncated to the 10 most recent. -/
theorem C7_recent_buffers (u : UserData) (cs : List (CommentEvt × Nat))
    (gs : List (GiftEvt × Nat))
    (hc : u.recentComments.length ≤ 10) (hg : u.recentGifts.length ≤ 10) :
    (applyComments cs u).recentComments
        = ((cs.map (fun e => mkCommentEntry e.1 e.2)).reverse ++ u.recentComments).take 10 ∧
    (applyComments cs u).recentComments.length ≤ 10 ∧
    (applyGifts gs u).recentGifts
        = ((gs.map (fun e => mkGiftEntry e.1 e.2)).reverse ++ u.recentGifts).take 10 ∧
    (applyGifts gs u).recentGifts.length ≤ 10 ∧
    (∀ (d : CommentEvt) (now : Nat),
        (onComment d now u).recentComments.head? = some (mkCommentEntry d now)) ∧
    (∀ (d : GiftEvt) (now : Nat),
        (onGift d now u).recentGifts.head? = some (mkGiftEntry d now)) := by
  refine ⟨applyComments_recent cs u hc, ?_, applyGifts_recent gs u hg, ?_, ?_, ?_⟩
  · rw [applyComments_recent cs u hc]; exact List.length_take_le 10 _
  · rw [applyGifts_recent gs u hg]; exact List.length_take_le 10 _
  · intro d now; simp [onComment]
  · intro d now; simp [onGift]

/-- Witness for C7: two comment events and one gift event on a fresh account
keep both buffers within the cap of 10. -/
theorem C7_witness :
    (applyComments [(cEvt, 1), (cEvt, 2)] (createInitialUserData "erin" 0)).recentComments.length
        ≤ 10 ∧
    (applyGifts [(gEvt, 3)] (createInitialUserData "erin" 0)).recentGifts.length ≤ 10 :=
  ⟨(C7_recent_buffers (createInitialUserData "erin" 0) [(cEvt, 1), (cEvt, 2)] [(gEvt, 3)]
      (by decide) (by decide)).2.1,
   (C7_recent_buffers (createInitialUserData "erin" 0) [(cEvt, 1), (cEvt, 2)] [(gEvt, 3)]
      (by decide) (by decide)).2.2.2.1⟩

/-- Claim C10: the untrack operation (`POST /api/remove-user`) dereferences
the supplied username without a presence check, so a request whose body omits
the `username` field throws a `TypeError` — unhandled in the handler, it does
not produce the `NotFound` (404) error the interface promises for absent
accounts. -/
theorem C10_missing_username (st : SrvState) :
    removeUserHandler none st = (RemoveResult.typeError, st) ∧
    ¬ (RemoveResult.typeError = RemoveResult.notFound) :=
  ⟨rfl, by decide⟩

theorem capOK_processConnectionQueue (ok : String → Bool) (st : SrvState)
    (hc : capOK st) : capOK (processConnectionQueue ok st).state := by
  unfold processConnectionQueue
  split
  · exact hc
  · split
    · exact hc
    · split
      · exact connInsert_cap (Nat.lt_of_not_le (by assumption))
      · exact hc

theorem capOK_restoreExistingUsersStep (ok : String → Bool) (now : Nat)
    (row : DbRow) (st : SrvState) (hc : capOK st) :
    capOK (restoreExistingUsersStep ok now row st) := by
  unfold restoreExistingUsersStep
  dsimp only
  split_ifs with h1 h2
  · exact connInsert_cap h1.2
  · exact hc
  · exact hc

theorem capOK_addUserHandler (alt : Option AltInputs) (cok : Bool) (now : Nat)
    (body : Option String) (st : SrvState) (hc : capOK st) :
    capOK (addUserHandler alt cok now body st).2 := by
  cases body with
  | none => exact hc
  | some username =>
    cases alt with
    | some inp =>
      unfold addUserHandler
      dsimp only
      split_ifs with h1 h2 h3 h4 h5 h6 <;>
        first
          | exact hc
          | exact connInsert_cap (Nat.lt_of_not_le h4)
    | none =>
      unfold addUserHandler
      dsimp only
      split_ifs with h1 h2 h3 h4 h5 <;>
        first
          | exact hc
          | exact connInsert_cap (Nat.lt_of_not_le h4)

theorem capOK_checkLiveStatusAccurateStep (p : ProbeResults) (ok : String → Bool)
    (now : Nat) (h : String) (st : SrvState) (hc : capOK st) :
    capOK (checkLiveStatusAccurateStep p ok now h st).1 := by
  unfold checkLiveStatusAccurateStep
  split
  · exact hc
  · split
    · exact hc
    · split
      · exact hc
      · split
        · dsimp only
          split
          · exact connInsert_cap (by
              rename_i hcond
              exact hcond.2.1)
          · exact hc
        · exact le_trans (List.length_filter_le _ _) hc

theorem capOK_removeUserHandler (body : Option String) (st : SrvState)
    (hc : capOK st) : capOK (removeUserHandler body st).2 := by
  unfold removeUserHandler
  cases body with
  | none => exact hc
  | some username =>
    dsimp only
    split
    · exact hc
    · exact le_trans (List.length_filter_le _ _) hc

/-- Claim C1 (amended): every path that opens an EventStream — add-user,
queue drain, startup restore, reconciliation re-admit — first checks the
active count against `MAX_CONCURRENT_CONNECTIONS`, and each of these
operations, run atomically (no interleaving between its capacity check and
its `connectToTikTokLive` call), preserves
`connections.size ≤ MAX_CONCURRENT_CONNECTIONS`; the interleaved add-user
schedule of the counterexample is what the claim's concurrency part fails
on. -/
theorem C1_amended (ok : String → Bool) (alt : Option AltInputs) (cok : Bool)
    (now : Nat) (body : Option String) (row : DbRow) (p : ProbeResults)
    (h : String) (st : SrvState) (hc : capOK st) :
    capOK (processConnectionQueue ok st).state ∧
    capOK (restoreExistingUsersStep ok now row st) ∧
    capOK (addUserHandler alt cok now body st).2 ∧
    capOK (checkLiveStatusAccurateStep p ok now h st).1 ∧
    capOK (removeUserHandler body st).2 :=
  ⟨capOK_processConnectionQueue ok st hc,
   capOK_restoreExistingUsersStep ok now row st hc,
   capOK_addUserHandler alt cok now body st hc,
   capOK_checkLiveStatusAccurateStep p ok now h st hc,
   capOK_removeUserHandler body st hc⟩

/-- Witness for C1 (amended): each guarded operation keeps the empty-pool
state under the cap. -/
theorem C1_witness :
    capOK (processConnectionQueue (fun _ => true) stEmpty).state ∧
    capOK (restoreExistingUsersStep (fun _ => true) 0 rowEx stEmpty) ∧
    capOK (addUserHandler none true 0 (some "alice") stEmpty).2 ∧
    capOK (checkLiveStatusAccurateStep ⟨some true, none, none⟩ (fun _ => true) 0
      "alice" stEmpty).1 ∧
    capOK (removeUserHandler (some "alice") stEmpty).2 :=
  C1_amended (fun _ => true) none true 0 (some "alice") rowEx ⟨some true, none, none⟩
    "alice" stEmpty (by decide)

/-- Counterexample to C1 as stated: in `POST /api/add-user` the capacity
check (server.js:877, `addUserCapacityCheck`) is separated from the
`connectToTikTokLive` call (server.js:929, whose synchronous pool insertion
is `connectPoolAdd`, server.js:708) by awaited calls
(`checkLiveWithAlternatives`, database writes).  Two concurrent add-user
requests can therefore both run the check against the same observed state
with 24 active connections — both pass — and only then each perform its
connection, leaving 26 > 25 admitted connections. -/
theorem C1_counterexample :
    st24.connections.length = 24 ∧
    addUserCapacityCheck st24 = true ∧
    (connectPoolAdd "bob" (connectPoolAdd "alice" st24)).connections.length = 26 ∧
    ¬ ((connectPoolAdd "bob" (connectPoolAdd "alice" st24)).connections.length
        ≤ MAX_CONCURRENT_CONNECTIONS) := by decide

/-- Claim C2 (amended): a failed connection attempt never deletes the
account's `users` row, but its effect depends on the path.  In the startup
restore the handle goes to the wait queue with status `'waiting'` and its
`liveData` entry is kept; in `POST /api/add-user` a failed attempt leaves
the handle tracked with status `'monitoring'` — it is NOT appended to the
wait queue; and the asynchronous connection-error callback of
`connectToTikTokLive` deletes the handle's `liveData` entry (the `users`
row survives), so in-memory tracking can be lost without an explicit
untrack. -/
theorem C2_amended :
    (∀ (ok : String → Bool) (now : Nat) (row : DbRow) (st : SrvState),
        ok row.username = false →
          (mapGet row.username (restoreExistingUsersStep ok now row st).liveData).isSome
              = true ∧
          (restoreExistingUsersStep ok now row st).connectionQueue
              = st.connectionQueue ++ [row.username] ∧
          mapGet row.username (restoreExistingUsersStep ok now row st).users
              = some DbStatus.waiting) ∧
    (∀ (inp : AltInputs) (now : Nat) (username : String) (st : SrvState),
        ¬ (username = "") → ¬ (cleanHandle username = "") →
        mapGet (cleanHandle username) st.users = none →
        st.connections.length < MAX_CONCURRENT_CONNECTIONS →
        (checkLiveWithAlternatives inp).finalResult.isLive = false →
          (addUserHandler (some inp) false now (some username) st).1
              = AddUserResult.addedNotLive ∧
          (mapGet (cleanHandle username)
              (addUserHandler (some inp) false now (some username) st).2.liveData).isSome
              = true ∧
          (addUserHandler (some inp) false now (some username) st).2.connectionQueue
              = st.connectionQueue ∧
          mapGet (cleanHandle username)
              (addUserHandler (some inp) false now (some username) st).2.users
              = some DbStatus.monitoring) ∧
    (∀ (h : String) (st : SrvState),
        mapGet h (connectError h st).liveData = none ∧
        (connectError h st).users = st.users) := by
  refine ⟨?_, ?_, ?_⟩
  · intro ok now row st hfail
    unfold restoreExistingUsersStep
    dsimp only
    split_ifs with h1 h2
    · rw [h2] at hfail; cases hfail
    · exact ⟨by simp [mapGet_mapSet_self], rfl, mapGet_mapSet_self _ _ _⟩
    · exact ⟨by simp [mapGet_mapSet_self], rfl, mapGet_mapSet_self _ _ _⟩
  · intro inp now username st hne hclean hdup hcap hoff
    have hnotsome : (mapGet (cleanHandle username) st.users).isSome = false := by
      rw [hdup]; rfl
    have hnotge : ¬ (st.connections.length ≥ MAX_CONCURRENT_CONNECTIONS) :=
      Nat.not_le.mpr hcap
    unfold addUserHandler
    simp only [hne, if_false, hclean, hnotsome, Bool.false_eq_true, hnotge, hoff,
      if_neg, dite_eq_ite]
    simp [mapGet_mapSet_self]
  · intro h st
    exact ⟨mapGet_mapDelete_self h st.liveData, rfl⟩

/-- Witness for C2 (amended): the restore path queues "dave" on a failed
reconnect, the add-user path keeps "alice" tracked as `'monitoring'` after a
failed attempt, and the connection-error callback erases "bob" from the live
data. -/
theorem C2_witness :
    (mapGet "dave" (restoreExistingUsersStep (fun _ => false) 0 rowEx stEmpty).liveData).isSome
        = true ∧
    (addUserHandler (some ⟨.failure, .failure⟩) false 0 (some "alice") stEmpty).1
        = AddUserResult.addedNotLive ∧
    mapGet "bob" (connectError "bob" stEmpty).liveData = none :=
  ⟨(C2_amended.1 (fun _ => false) 0 rowEx stEmpty rfl).1,
   (C2_amended.2.1 ⟨.failure, .failure⟩ 0 "alice" stEmpty (by decide) (by decide) rfl
      (by decide) (by decide)).1,
   (C2_amended.2.2 "bob" stEmpty).1⟩

/-- Counterexample to C2 as stated: adding "alice" while every connection
method fails (`POST /api/add-user`, server.js:940-951) leaves the wait queue
empty and the stored status `'monitoring'` — the handle does not transition
to the Queued state (queue entry + status `'waiting'`) the claim requires. -/
theorem C2_counterexample :
    (addUserHandler (some ⟨.failure, .failure⟩) false 0 (some "alice") stEmpty).1
        = AddUserResult.addedNotLive ∧
    (addUserHandler (some ⟨.failure, .failure⟩) false 0 (some "alice") stEmpty).2.connectionQueue
        = [] ∧
    mapGet "alice"
        (addUserHandler (some ⟨.failure, .failure⟩) false 0 (some "alice") stEmpty).2.users
        = some DbStatus.monitoring ∧
    ¬ (DbStatus.monitoring = DbStatus.waiting) := by decide

/-- Claim C3 (amended): the counters `totalComments`, `totalGifts` and
`totalDiamonds` are non-decreasing under comment, gift, viewer-count and
disconnect events and under reconciliation status flips; but a successful
(re)connection in `connectToTikTokLive` overwrites the handle's state with
`createInitialUserData`, resetting all three counters to zero — so a
reconnection, not only explicit removal, resets them. -/
theorem C3_amended (u : UserData) (c : CommentEvt) (g : GiftEvt) (v : Option Nat)
    (now now2 : Nat) (p : ProbeResults) (ok : String → Bool) (h : String)
    (st : SrvState) :
    u.totalComments ≤ (onComment c now u).totalComments ∧
    countersOf (onComment c now u) = (u.totalComments + 1, u.totalGifts, u.totalDiamonds) ∧
    u.totalGifts ≤ (onGift g now u).totalGifts ∧
    u.totalDiamonds ≤ (onGift g now u).totalDiamonds ∧
    (onGift g now u).totalComments = u.totalComments ∧
    countersOf (onRoomUser v now u) = countersOf u ∧
    countersOf (onDisconnected now u) = countersOf u ∧
    ((mapGet h (checkLiveStatusAccurateStep p ok now h st).1.liveData).map countersOf)
        = ((mapGet h st.liveData).map countersOf) ∧
    mapGet h (connectSuccess h now2 st).liveData = some (createInitialUserData h now2) ∧
    countersOf (createInitialUserData h now2) = (0, 0, 0) := by
  refine ⟨Nat.le_succ _, rfl, Nat.le_succ _, Nat.le_add_right _ _, rfl, rfl, rfl, ?_,
    mapGet_mapSet_self _ _ _, rfl⟩
  cases hg : mapGet h st.liveData with
  | none => simp [checkLiveStatusAccurateStep, hg]
  | some u' =>
    cases hr : resolveStatus p with
    | none => simp [checkLiveStatusAccurateStep, hg, hr]
    | some b =>
      by_cases hb : b = u'.isLive
      · simp [checkLiveStatusAccurateStep, hg, hr, hb]
      · cases b <;>
          simp [checkLiveStatusAccurateStep, hg, hr, hb, mapGet_mapSet_self,
            apply_ite (fun s : SrvState => s.liveData), countersOf]

/-- Counterexample to C3 as stated: "alice" has `totalComments = 5`; after
the successful-connection callback of `connectToTikTokLive` (a reconnection,
not an account removal) her state is `createInitialUserData` and the counter
is 0 < 5 — a reconnection reset the counters. -/
theorem C3_counterexample :
    mapGet "alice" (connectSuccess "alice" 1 stAlice).liveData
        = some (createInitialUserData "alice" 1) ∧
    uAlice.totalComments = 5 ∧
    (createInitialUserData "alice" 1).totalComments = 0 ∧
    (createInitialUserData "alice" 1).totalComments < uAlice.totalComments := by decide

/-- Claim C6 (amended): a timed-out connection attempt is classified as
conclusive Offline, not Unknown — the timeout message `'Connection timeout'`
is on the `offlineErrors` list of `checkSingleUserLiveStatusAccurate`, so
the probe returns `false` (offline) for it, and when the reconciliation
sweep resolves that result for a handle recorded as live, the recorded
`isLive` flips to `false` on the strength of the timeout alone. -/
theorem C6_amended (st : SrvState) (h : String) (u : UserData) (ok : String → Bool)
    (now : Nat) (hget : mapGet h st.liveData = some u) (hlive : u.isLive = true) :
    "Connection timeout" ∈ offlineErrors ∧
    checkSingleUserLiveStatusAccurate (.failure "Connection timeout") = some false ∧
    (mapGet h (checkLiveStatusAccurateStep
        ⟨none, none, checkSingleUserLiveStatusAccurate (.failure "Connection timeout")⟩
        ok now h st).1.liveData).map (fun v => v.isLive) = some false := by
  have hcls : checkSingleUserLiveStatusAccurate (.failure "Connection timeout")
      = some false := by decide
  refine ⟨by decide, hcls, ?_⟩
  rw [hcls]
  have hres : resolveStatus ⟨none, none, some false⟩ = some false := rfl
  simp [checkLiveStatusAccurateStep, hget, hres, hlive, mapGet_mapSet_self]

/-- Witness for C6 (amended): "dave" is recorded live; one timed-out
accurate probe flips him to offline. -/
theorem C6_witness :
    (mapGet "dave" (checkLiveStatusAccurateStep
        ⟨none, none, checkSingleUserLiveStatusAccurate (.failure "Connection timeout")⟩
        (fun _ => false) 3 "dave" stDave).1.liveData).map (fun v => v.isLive)
      = some false :=
  (C6_amended stDave "dave" uDave (fun _ => false) 3 rfl rfl).2.2

/-- Counterexample to C6 as stated: the claim says a timeout is classified
as Unknown and never flips `isLive` to false; but
`checkSingleUserLiveStatusAccurate` maps the timeout message to a conclusive
`false` (not `none`/Unknown), and a sweep over "dave" (recorded live) using
only that timed-out probe result flips his recorded `isLive` from true to
false. -/
theorem C6_counterexample :
    checkSingleUserLiveStatusAccurate (.failure "Connection timeout") = some false ∧
    ¬ (checkSingleUserLiveStatusAccurate (.failure "Connection timeout") = none) ∧
    (mapGet "dave" stDave.liveData).map (fun v => v.isLive) = some true ∧
    (mapGet "dave" (checkLiveStatusAccurateStep
        ⟨none, none, checkSingleUserLiveStatusAccurate (.failure "Connection timeout")⟩
        (fun _ => false) 3 "dave" stDave).1.liveData).map (fun v => v.isLive)
      = some false := by decide

/-- Claim C8 (amended): `checkLiveWithAlternatives` tries its strategies in
priority order but returns early only on a Live result: a conclusive
Offline from the direct API — like an error — escalates to web scraping,
and when no strategy reports live the final result is Offline with source
`'all-methods'`; the final live verdict is exactly "some strategy reported
live". -/
theorem C8_amended (inp : AltInputs) :
    (inp.directApi = .success true →
        checkLiveWithAlternatives inp
          = ⟨[("direct-api", true)], ⟨true, "direct-api"⟩⟩) ∧
    (¬ (inp.directApi = .success true) →
        (checkLiveWithAlternatives inp).attempts.length = 2 ∧
        ((checkLiveWithAlternatives inp).finalResult.isLive = true
            ↔ inp.scraping = .success true)) := by
  obtain ⟨d, s⟩ := inp
  constructor
  · intro hd
    subst hd
    rfl
  · intro hd
    rcases d with b | _
    · cases b
      · rcases s with c | _
        · cases c <;> exact ⟨rfl, by decide⟩
        · exact ⟨rfl, by decide⟩
      · exact absurd rfl hd
    · rcases s with c | _
      · cases c <;> exact ⟨rfl, by decide⟩
      · exact ⟨rfl, by decide⟩

/-- Witness for C8 (amended): a live direct-API result returns immediately
with one attempt; a failed direct-API probe escalates to scraping. -/
theorem C8_witness :
    checkLiveWithAlternatives ⟨.success true, .failure⟩
        = ⟨[("direct-api", true)], ⟨true, "direct-api"⟩⟩ ∧
    (checkLiveWithAlternatives ⟨.failure, .success true⟩).attempts.length = 2 :=
  ⟨(C8_amended ⟨.success true, .failure⟩).1 rfl,
   ((C8_amended ⟨.failure, .success true⟩).2 (by decide)).1⟩

/-- Counterexample to C8 as stated: the direct API returns a conclusive
(non-Unknown) Offline, yet the caller does not stop — it escalates to web
scraping (two attempts recorded) and the scraping result, not the first
conclusive one, decides the final verdict (Live from `'web-scraping'`). -/
theorem C8_counterexample :
    checkLiveWithAlternatives ⟨.success false, .success true⟩
        = ⟨[("direct-api", true), ("web-scraping", true)], ⟨true, "web-scraping"⟩⟩ ∧
    ¬ ((checkLiveWithAlternatives ⟨.success false, .success true⟩).attempts.length = 1) ∧
    ¬ ((checkLiveWithAlternatives ⟨.success false, .success true⟩).finalResult.isLive
        = false) := by decide

/-- Claim C9 (amended): when the resolved probe status equals the handle's
recorded `isLive`, the sweep's application step leaves the `LiveState`
entirely unchanged — it does not even refresh the `lastUpdate` heartbeat —
and emits no notification of its own; consequently an immediately repeated
sweep with the same probe results produces zero additional notifications. -/
theorem C9_amended :
    (∀ (p : ProbeResults) (ok : String → Bool) (now : Nat) (h : String)
        (st : SrvState) (u : UserData),
        mapGet h st.liveData = some u → resolveStatus p = some u.isLive →
        checkLiveStatusAccurateStep p ok now h st = (st, [])) ∧
    (∀ (p : ProbeResults) (ok : String → Bool) (now now2 : Nat) (h : String)
        (st : SrvState),
        (checkLiveStatusAccurateStep p ok now2 h
            (checkLiveStatusAccurateStep p ok now h st).1).2 = []) := by
  constructor
  · intro p ok now h st u hget hres
    simp [checkLiveStatusAccurateStep, hget, hres]
  · intro p ok now now2 h st
    cases hg : mapGet h st.liveData with
    | none => simp [checkLiveStatusAccurateStep, hg]
    | some u =>
      cases hr : resolveStatus p with
      | none => simp [checkLiveStatusAccurateStep, hg, hr]
      | some b =>
        by_cases hb : b = u.isLive
        · simp [checkLiveStatusAccurateStep, hg, hr, hb]
        · cases b <;>
            simp [checkLiveStatusAccurateStep, hg, hr, hb, mapGet_mapSet_self,
              apply_ite (fun s : SrvState => s.liveData)]

/-- Witness for C9 (amended): a matching probe result leaves "erin"'s state
and the notification list untouched, and a repeated sweep with the same
probe results emits nothing the second time. -/
theorem C9_witness :
    checkLiveStatusAccurateStep ⟨some false, none, none⟩ (fun _ => true) 3 "erin" stErin
        = (stErin, []) ∧
    (checkLiveStatusAccurateStep ⟨some true, none, none⟩ (fun _ => true) 4 "erin"
        (checkLiveStatusAccurateStep ⟨some true, none, none⟩ (fun _ => true) 3 "erin"
          stErin).1).2 = [] :=
  ⟨C9_amended.1 ⟨some false, none, none⟩ (fun _ => true) 3 "erin" stErin uErin rfl rfl,
   C9_amended.2 ⟨some true, none, none⟩ (fun _ => true) 3 4 "erin" stErin⟩

/-- Counterexample to C9 as stated: the claim says a matching sweep
"refreshes only the lastUpdate timestamp"; but a sweep at time 7 over "erin"
(recorded offline, probe resolves offline) leaves the state completely
unchanged — `lastUpdate` stays 0, it is not refreshed to 7. -/
theorem C9_counterexample :
    checkLiveStatusAccurateStep ⟨some false, none, none⟩ (fun _ => true) 7 "erin" stErin
        = (stErin, []) ∧
    (mapGet "erin" stErin.liveData).map (fun v => v.lastUpdate) = some 0 ∧
    ¬ ((mapGet "erin" (checkLiveStatusAccurateStep ⟨some false, none, none⟩
          (fun _ => true) 7 "erin" stErin).1.liveData).map (fun v => v.lastUpdate)
        = some 7) := by decide

end TikTokMonitor
